import Mathlib

/-
Verification of the organizify Spotify authentication subsystem
(`pkg/spotify/auth.go`) against its design specification.

Shallow embedding conventions:
- Time is modelled as `Int`, in seconds.  Go's `time.Now()` becomes an
  explicit `now : Int` argument; `token.Expiry.After(now.Add(5*time.Minute))`
  becomes `now + 5 * 60 < expiry`.
- `crypto/rand` randomness is supplied as an explicit entropy input:
  `generateRandomString` receives the random bytes it would have drawn.
- The network is an oracle `post : PostOracle` mapping the form fields of an
  outbound `http.PostForm` to the server's reply.  A reply is either a
  transport error (`netErr`) or a response with a status code, a raw body
  string, and the result of JSON-decoding the body into the token response
  shape (`none` = decoder failure; the wrapped decoder detail text is not
  modelled).
- `sha256.Sum256` is the Go standard library; it is embedded here as a full
  executable FIPS 180-4 SHA-256 over byte lists (`Nat` values < 256), checked
  below against the standard "abc" test vector.  `base64.RawURLEncoding` is
  embedded as `b64EncodeBytes`.
- The package globals (`state`, `codeVerifier`, `cachedToken`, the channel
  `ch`) become explicit arguments and result fields.  The hand-off channel is
  modelled by its observable effect: `completeAuthHandler` reports the token
  it sends (if any) in `HandlerResult.sent`, and `Login` receives exactly
  that value; when the handler sends nothing within the window, `Login`'s
  `select` falls to the 5-minute timeout branch.
- `Login` is modelled per call: `cache` is the value of `cachedToken` on
  entry, `finalCache` its value on return; `refreshCalls`/`exchangeCalls`
  count the token-endpoint POSTs made at the refresh and exchange call
  sites; `listenerStarted`/`listenerStopped` record whether the callback
  HTTP server was started and whether `server.Shutdown` ran (or no server
  was ever started) before returning.
-/

def clientID : String := "e2d7b802ac6a4132a265fab71f0645d0"

def redirectURI : String := "http://127.0.0.1:1069"

def authURL : String := "https://accounts.spotify.com/authorize"

def tokenURL : String := "https://accounts.spotify.com/api/token"

def scopes : List String :=
  ["playlist-read-private", "playlist-read-collaborative", "user-library-read"]

/-! SHA-256 (FIPS 180-4), the embedding of `crypto/sha256.Sum256`. -/

def w32 (n : Nat) : Nat := n % 4294967296

def rotr (n x : Nat) : Nat := w32 (x / 2 ^ n + x % 2 ^ n * 2 ^ (32 - n))

def shaCh (x y z : Nat) : Nat := (x &&& y) ^^^ ((4294967295 - w32 x) &&& z)

def shaMaj (x y z : Nat) : Nat := (x &&& y) ^^^ (x &&& z) ^^^ (y &&& z)

def bigSigma0 (x : Nat) : Nat := rotr 2 x ^^^ rotr 13 x ^^^ rotr 22 x

def bigSigma1 (x : Nat) : Nat := rotr 6 x ^^^ rotr 11 x ^^^ rotr 25 x

def smallSigma0 (x : Nat) : Nat := rotr 7 x ^^^ rotr 18 x ^^^ (x >>> 3)

def smallSigma1 (x : Nat) : Nat := rotr 17 x ^^^ rotr 19 x ^^^ (x >>> 10)

def shaK : List Nat := [
  1116352408, 1899447441, 3049323471, 3921009573, 961987163, 1508970993,
  2453635748, 2870763221, 3624381080, 310598401, 607225278, 1426881987,
  1925078388, 2162078206, 2614888103, 3248222580, 3835390401, 4022224774,
  264347078, 604807628, 770255983, 1249150122, 1555081692, 1996064986,
  2554220882, 2821834349, 2952996808, 3210313671, 3336571891, 3584528711,
  113926993, 338241895, 666307205, 773529912, 1294757372, 1396182291,
  1695183700, 1986661051, 2177026350, 2456956037, 2730485921, 2820302411,
  3259730800, 3345764771, 3516065817, 3600352804, 4094571909, 275423344,
  430227734, 506948616, 659060556, 883997877, 958139571, 1322822218,
  1537002063, 1747873779, 1955562222, 2024104815, 2227730452, 2361852424,
  2428436474, 2756734187, 3204031479, 3329325298]

structure Hash8 where
  a : Nat
  b : Nat
  c : Nat
  d : Nat
  e : Nat
  f : Nat
  g : Nat
  h : Nat
deriving DecidableEq

def initH : Hash8 :=
  ⟨1779033703, 3144134277, 1013904242, 2773480762,
   1359893119, 2600822924, 528734635, 1541459225⟩

def be64 (n : Nat) : List Nat :=
  [n / 2 ^ 56 % 256, n / 2 ^ 48 % 256, n / 2 ^ 40 % 256, n / 2 ^ 32 % 256,
   n / 2 ^ 24 % 256, n / 2 ^ 16 % 256, n / 2 ^ 8 % 256, n % 256]

def be32 (w : Nat) : List Nat := [w / 2 ^ 24 % 256, w / 2 ^ 16 % 256, w / 2 ^ 8 % 256, w % 256]

def sha256Pad (msg : List Nat) : List Nat :=
  msg ++ 128 :: List.replicate ((119 - msg.length % 64) % 64) 0 ++ be64 (msg.length * 8)

def toWords : List Nat → List Nat
  | b0 :: b1 :: b2 :: b3 :: rest => (b0 * 2 ^ 24 + b1 * 2 ^ 16 + b2 * 2 ^ 8 + b3) :: toWords rest
  | _ => []

def nextWord (ws : Array Nat) : Nat :=
  let i := ws.size
  w32 (ws.getD (i - 16) 0 + smallSigma0 (ws.getD (i - 15) 0) +
       ws.getD (i - 7) 0 + smallSigma1 (ws.getD (i - 2) 0))

def extendW (ws : Array Nat) : Nat → Array Nat
  | 0 => ws
  | n + 1 => extendW (ws.push (nextWord ws)) n

def msgSchedule (chunk : List Nat) : List Nat :=
  (extendW (toWords chunk).toArray 48).toList

def shaRound (st : Hash8) (kw : Nat × Nat) : Hash8 :=
  let t1 := w32 (st.h + bigSigma1 st.e + shaCh st.e st.f st.g + kw.1 + kw.2)
  let t2 := w32 (bigSigma0 st.a + shaMaj st.a st.b st.c)
  ⟨w32 (t1 + t2), st.a, st.b, st.c, w32 (st.d + t1), st.e, st.f, st.g⟩

def processChunk (st : Hash8) (chunk : List Nat) : Hash8 :=
  let fin := (List.zip shaK (msgSchedule chunk)).foldl shaRound st
  ⟨w32 (st.a + fin.a), w32 (st.b + fin.b), w32 (st.c + fin.c), w32 (st.d + fin.d),
   w32 (st.e + fin.e), w32 (st.f + fin.f), w32 (st.g + fin.g), w32 (st.h + fin.h)⟩

def chunksAux : Nat → List Nat → List (List Nat)
  | 0, _ => []
  | _, [] => []
  | fuel + 1, l => l.take 64 :: chunksAux fuel (l.drop 64)

def chunks64 (l : List Nat) : List (List Nat) := chunksAux l.length l

def sha256Bytes (msg : List Nat) : List Nat :=
  let fin := (chunks64 (sha256Pad msg)).foldl processChunk initH
  be32 fin.a ++ be32 fin.b ++ be32 fin.c ++ be32 fin.d ++
  be32 fin.e ++ be32 fin.f ++ be32 fin.g ++ be32 fin.h

/-- Sanity check of the SHA-256 embedding against the FIPS 180-4 "abc" test vector. -/
theorem sha256Bytes_abc :
    sha256Bytes [97, 98, 99] =
      [186, 120, 22, 191, 143, 1, 207, 234, 65, 65, 64, 222, 93, 174, 34, 35,
       176, 3, 97, 163, 150, 23, 122, 156, 180, 16, 255, 97, 242, 0, 21, 173] := by
  decide

/-! Base64, the embedding of `base64.RawURLEncoding.EncodeToString`:
URL-safe alphabet, no padding. -/

def base64UrlAlphabet : List Char :=
  "ABCDEFGHIJKLMNOPQRSTUVWXYZabcdefghijklmnopqrstuvwxyz0123456789-_".data

def b64Char (n : Nat) : Char := base64UrlAlphabet.getD n 'A'

def b64EncodeBytes : List Nat → List Char
  | [] => []
  | [b1] => [b64Char (b1 / 4), b64Char (b1 % 4 * 16)]
  | [b1, b2] => [b64Char (b1 / 4), b64Char (b1 % 4 * 16 + b2 / 16), b64Char (b2 % 16 * 4)]
  | b1 :: b2 :: b3 :: rest =>
      b64Char (b1 / 4) :: b64Char (b1 % 4 * 16 + b2 / 16) ::
      b64Char (b2 % 16 * 4 + b3 / 64) :: b64Char (b3 % 64) :: b64EncodeBytes rest

/-- UTF-8 encoding of one character, the embedding of Go's `[]byte(string)` view. -/
def utf8Bytes (c : Char) : List Nat :=
  let n := c.toNat
  if n < 128 then [n]
  else if n < 2048 then [192 + n / 64, 128 + n % 64]
  else if n < 65536 then [224 + n / 4096, 128 + n / 64 % 64, 128 + n % 64]
  else [240 + n / 262144, 128 + n / 4096 % 64, 128 + n / 64 % 64, 128 + n % 64]

def strBytes (s : String) : List Nat := s.data.flatMap utf8Bytes

/-! PKCE parameter generation (`generateRandomString`, `generateCodeVerifier`,
`generateCodeChallenge`, `initPKCE`).  The `crypto/rand` bytes are passed in
as the `entropy` argument. -/

def generateRandomString (entropy : List Nat) : String :=
  String.mk (b64EncodeBytes entropy)

def generateCodeVerifier (entropy : List Nat) : String :=
  generateRandomString entropy

def generateCodeChallenge (verifier : String) : String :=
  String.mk (b64EncodeBytes (sha256Bytes (strBytes verifier)))

structure PKCEAttempt where
  state : String
  verifier : String
  challenge : String
deriving DecidableEq

/-- `initPKCE`: `state` from 16 random bytes, `verifier` from 32 random bytes,
`challenge` derived from the verifier. -/
def initPKCE (stateEntropy verifierEntropy : List Nat) : PKCEAttempt :=
  let st := generateRandomString stateEntropy
  let verifier := generateCodeVerifier verifierEntropy
  { state := st, verifier := verifier, challenge := generateCodeChallenge verifier }

/-! Token exchange and refresh. -/

structure Token where
  accessToken : String
  tokenType : String
  refreshToken : String
  expiry : Int
deriving DecidableEq

structure TokenResponseBody where
  access_token : String
  token_type : String
  expires_in : Int
  refresh_token : String
  scope : String
deriving DecidableEq

inductive PostResult where
  | netErr (msg : String)
  | resp (status : Nat) (body : String) (decoded : Option TokenResponseBody)
deriving DecidableEq

def PostOracle : Type := List (String × String) → PostResult

inductive TokenResult where
  | ok (t : Token)
  | err (msg : String)
deriving DecidableEq

/-- `exchangeCodeForToken`: POST the authorization-code grant form and parse
the reply.  The package-global `codeVerifier` is the explicit `verifier`
argument. -/
def exchangeCodeForToken (code verifier : String) (now : Int) (post : PostOracle) : TokenResult :=
  match post [("client_id", clientID), ("grant_type", "authorization_code"),
              ("code", code), ("redirect_uri", redirectURI), ("code_verifier", verifier)] with
  | .netErr msg => .err ("failed to exchange code: " ++ msg)
  | .resp status body decoded =>
    if status ≠ 200 then
      .err ("token exchange failed (status " ++ toString status ++ "): " ++ body)
    else
      match decoded with
      | none => .err "failed to decode token response"
      | some tr =>
        .ok { accessToken := tr.access_token, tokenType := tr.token_type,
              refreshToken := tr.refresh_token, expiry := now + tr.expires_in }

/-- `refreshToken`: POST the refresh-token grant form and parse the reply,
keeping the old refresh token when the response omits a new one. -/
def refreshToken (oldToken : Token) (now : Int) (post : PostOracle) : TokenResult :=
  match post [("client_id", clientID), ("grant_type", "refresh_token"),
              ("refresh_token", oldToken.refreshToken)] with
  | .netErr msg => .err ("failed to refresh token: " ++ msg)
  | .resp status body decoded =>
    if status ≠ 200 then
      .err ("token refresh failed (status " ++ toString status ++ "): " ++ body)
    else
      match decoded with
      | none => .err "failed to decode token response"
      | some tr =>
        let newRefreshToken := if tr.refresh_token = "" then oldToken.refreshToken
                               else tr.refresh_token
        .ok { accessToken := tr.access_token, tokenType := tr.token_type,
              refreshToken := newRefreshToken, expiry := now + tr.expires_in }

/-- `isTokenValid`: nil check, then `Expiry.After(now.Add(5*time.Minute))`. -/
def isTokenValid (token : Option Token) (now : Int) : Bool :=
  match token with
  | none => false
  | some t => decide (now + 5 * 60 < t.expiry)

/-! The callback handler and Login. -/

/-- An inbound callback request, read through `r.URL.Query().Get`, which
yields `""` for an absent parameter. -/
structure CallbackRequest where
  error : String
  error_description : String
  state : String
  code : String
deriving DecidableEq

/-- Observable outcome of one run of `completeAuthHandler`: the HTTP status
written, the `http.Error` message (`none` when the success page is rendered
instead), how many token-endpoint POSTs the run made, and the token sent on
the hand-off channel (`none` when the handler returns without sending). -/
structure HandlerResult where
  status : Nat
  message : Option String
  exchangeCalls : Nat
  sent : Option Token
deriving DecidableEq

/-- `completeAuthHandler`: error-parameter check, then state check, then
code-presence check, then the code-for-token exchange; only a successful
exchange sends on the channel.  The package globals `state` and
`codeVerifier` are the explicit `st` and `verifier` arguments. -/
def completeAuthHandler (st : String) (r : CallbackRequest) (verifier : String)
    (now : Int) (post : PostOracle) : HandlerResult :=
  if r.error ≠ "" then
    { status := 403,
      message := some ("Authentication error: " ++ r.error ++ " - " ++ r.error_description),
      exchangeCalls := 0, sent := none }
  else if r.state ≠ st then
    { status := 403, message := some "Invalid state parameter", exchangeCalls := 0, sent := none }
  else if r.code = "" then
    { status := 400, message := some "No authorization code", exchangeCalls := 0, sent := none }
  else
    match exchangeCodeForToken r.code verifier now post with
    | .err e =>
      { status := 500, message := some ("Failed to get token: " ++ e),
        exchangeCalls := 1, sent := none }
    | .ok token =>
      { status := 200, message := none, exchangeCalls := 1, sent := some token }

/-- Observable outcome of one `Login` call.  `finalCache` is the value of the
package-global `cachedToken` when the call returns. -/
structure LoginResult where
  accessToken : String
  refreshToken : String
  err : Option String
  finalCache : Option Token
  refreshCalls : Nat
  exchangeCalls : Nat
  listenerStarted : Bool
  listenerStopped : Bool
deriving DecidableEq

/-- The interactive tail of `Login`: `initPKCE`, start the callback server,
open the browser, then `select` between the hand-off channel and the
5-minute timer.  `req` is the callback request arriving within the window
(`none` when no request arrives); because `completeAuthHandler` sends on the
channel only after a successful exchange, any rejected request also leaves
`Login` in the timeout branch. -/
def interactiveLogin (cache : Option Token) (now : Int) (post : PostOracle)
    (stateEntropy verifierEntropy : List Nat) (req : Option CallbackRequest)
    (rcalls : Nat) : LoginResult :=
  let att := initPKCE stateEntropy verifierEntropy
  match req with
  | none =>
    { accessToken := "", refreshToken := "",
      err := some "authentication timeout after 5 minutes",
      finalCache := cache, refreshCalls := rcalls, exchangeCalls := 0,
      listenerStarted := true, listenerStopped := true }
  | some r =>
    let hres := completeAuthHandler att.state r att.verifier now post
    match hres.sent with
    | some token =>
      { accessToken := token.accessToken, refreshToken := token.refreshToken,
        err := none, finalCache := some token, refreshCalls := rcalls,
        exchangeCalls := hres.exchangeCalls,
        listenerStarted := true, listenerStopped := true }
    | none =>
      { accessToken := "", refreshToken := "",
        err := some "authentication timeout after 5 minutes",
        finalCache := cache, refreshCalls := rcalls, exchangeCalls := hres.exchangeCalls,
        listenerStarted := true, listenerStopped := true }

/-- `Login`: cached-and-fresh fast path, silent refresh for a stale cache,
otherwise the interactive flow. -/
def Login (cache : Option Token) (now : Int) (post : PostOracle)
    (stateEntropy verifierEntropy : List Nat) (req : Option CallbackRequest) : LoginResult :=
  match cache with
  | some t =>
    if isTokenValid (some t) now then
      { accessToken := t.accessToken, refreshToken := t.refreshToken, err := none,
        finalCache := some t, refreshCalls := 0, exchangeCalls := 0,
        listenerStarted := false, listenerStopped := true }
    else
      match refreshToken t now post with
      | .ok newToken =>
        { accessToken := newToken.accessToken, refreshToken := newToken.refreshToken,
          err := none, finalCache := some newToken, refreshCalls := 1, exchangeCalls := 0,
          listenerStarted := false, listenerStopped := true }
      | .err _ =>
        interactiveLogin (some t) now post stateEntropy verifierEntropy req 1
  | none => interactiveLogin none now post stateEntropy verifierEntropy req 0

/-- `GetAccessToken`: `Login` with the refresh-token projection dropped. -/
def GetAccessToken (cache : Option Token) (now : Int) (post : PostOracle)
    (stateEntropy verifierEntropy : List Nat) (req : Option CallbackRequest) :
    String × Option String :=
  let res := Login cache now post stateEntropy verifierEntropy req
  (res.accessToken, res.err)

/-! Helper lemmas. -/

/-- A string of the base64 URL-safe alphabet with no `=` padding. -/
def urlSafeNoPad (s : String) : Prop :=
  (∀ c ∈ s.data, c ∈ base64UrlAlphabet) ∧ '=' ∉ s.data

/-- Substring test, for reasoning about error-message contents. -/
def containsSubstr (s sub : String) : Bool :=
  (List.range (s.data.length + 1)).any (fun i => sub.data.isPrefixOf (s.data.drop i))

theorem b64EncodeBytes_length (l : List Nat) :
    (b64EncodeBytes l).length = (4 * l.length + 2) / 3 := by
  induction l using b64EncodeBytes.induct <;> (simp [b64EncodeBytes, *]; try omega)

theorem b64Char_mem_alphabet (n : Nat) (h : n < 64) : b64Char n ∈ base64UrlAlphabet := by
  have key : ∀ m, m < 64 → b64Char m ∈ base64UrlAlphabet := by decide
  exact key n h

theorem b64EncodeBytes_mem_alphabet (l : List Nat) (hl : ∀ b ∈ l, b < 256) :
    ∀ c ∈ b64EncodeBytes l, c ∈ base64UrlAlphabet := by
  induction l using b64EncodeBytes.induct with
  | case1 => simp [b64EncodeBytes]
  | case2 b1 =>
    have h1 := hl b1 (by simp)
    intro c hc
    simp [b64EncodeBytes] at hc
    rcases hc with rfl | rfl <;> exact b64Char_mem_alphabet _ (by omega)
  | case3 b1 b2 =>
    have h1 := hl b1 (by simp)
    have h2 := hl b2 (by simp)
    intro c hc
    simp [b64EncodeBytes] at hc
    rcases hc with rfl | rfl | rfl <;> exact b64Char_mem_alphabet _ (by omega)
  | case4 b1 b2 b3 rest ih =>
    have h1 := hl b1 (by simp)
    have h2 := hl b2 (by simp)
    have h3 := hl b3 (by simp)
    intro c hc
    simp [b64EncodeBytes] at hc
    rcases hc with rfl | rfl | rfl | rfl | hc
    · exact b64Char_mem_alphabet _ (by omega)
    · exact b64Char_mem_alphabet _ (by omega)
    · exact b64Char_mem_alphabet _ (by omega)
    · exact b64Char_mem_alphabet _ (by omega)
    · exact ih (fun b hb => hl b (by simp [hb])) c hc

theorem urlSafeNoPad_of_bytes (l : List Nat) (hl : ∀ b ∈ l, b < 256) :
    urlSafeNoPad (String.mk (b64EncodeBytes l)) := by
  have hmem : ∀ c ∈ b64EncodeBytes l, c ∈ base64UrlAlphabet :=
    b64EncodeBytes_mem_alphabet l hl
  refine ⟨hmem, fun hc => ?_⟩
  have : ('=' : Char) ∈ base64UrlAlphabet := hmem '=' hc
  revert this
  decide

theorem be32_mem_lt (w : Nat) : ∀ b ∈ be32 w, b < 256 := by
  intro b hb
  simp [be32] at hb
  rcases hb with rfl | rfl | rfl | rfl <;> omega

theorem sha256Bytes_mem_lt (msg : List Nat) : ∀ b ∈ sha256Bytes msg, b < 256 := by
  intro b hb
  simp only [sha256Bytes, List.mem_append] at hb
  rcases hb with ((((((h | h) | h) | h) | h) | h) | h) | h <;> exact be32_mem_lt _ _ h

theorem firstChar_append (p m : String) (hp : p.data ≠ []) :
    (p ++ m).data.head? = p.data.head? := by
  rw [String.data_append]
  cases hd : p.data with
  | nil => exact absurd hd hp
  | cons a l => simp

theorem ne_of_firstChar {s t : String} (h : s.data.head? ≠ t.data.head?) : s ≠ t :=
  fun he => h (by rw [he])

theorem data_append_ne_nil (p m : String) (hp : p.data ≠ []) : (p ++ m).data ≠ [] := by
  rw [String.data_append]
  intro h
  exact hp (List.append_eq_nil.mp h).1

/-- Every error produced by `refreshToken` is distinct from the timeout
message that `Login` reports, so falling through to interactive login never
surfaces the refresh error text. -/
theorem refreshToken_err_ne_timeout (t : Token) (now : Int) (post : PostOracle) (e : String)
    (h : refreshToken t now post = .err e) :
    e ≠ "authentication timeout after 5 minutes" := by
  unfold refreshToken at h
  generalize post [("client_id", clientID), ("grant_type", "refresh_token"),
                   ("refresh_token", t.refreshToken)] = pr at h
  rcases pr with msg | ⟨status, body, decoded⟩
  · simp only [TokenResult.err.injEq] at h
    subst h
    apply ne_of_firstChar
    rw [firstChar_append _ _ (by decide)]
    decide
  · by_cases hs : status = 200
    · subst hs
      simp only [ne_eq, reduceCtorEq, not_true_eq_false, reduceIte] at h
      rcases decoded with _ | tr
      · simp only [TokenResult.err.injEq] at h
        subst h
        decide
      · simp at h
    · simp only [ne_eq, hs, not_false_eq_true, reduceIte, TokenResult.err.injEq] at h
      subst h
      apply ne_of_firstChar
      rw [firstChar_append _ _ (data_append_ne_nil _ _ (data_append_ne_nil _ _ (by decide))),
          firstChar_append _ _ (data_append_ne_nil _ _ (by decide)),
          firstChar_append _ _ (by decide)]
      decide

/-- The only errors an interactive login reports are none or the timeout
message. -/
theorem interactiveLogin_err_cases (cache : Option Token) (now : Int) (post : PostOracle)
    (sb vb : List Nat) (req : Option CallbackRequest) (rcalls : Nat) :
    (interactiveLogin cache now post sb vb req rcalls).err = none ∨
    (interactiveLogin cache now post sb vb req rcalls).err =
      some "authentication timeout after 5 minutes" := by
  rcases req with _ | r
  · right
    simp [interactiveLogin]
  · rcases hs : (completeAuthHandler (initPKCE sb vb).state r (initPKCE sb vb).verifier
        now post).sent with _ | tok
    · right
      simp [interactiveLogin, hs]
    · left
      simp [interactiveLogin, hs]

/-! Concrete fixtures used by witnesses and counterexamples. -/

def z16 : List Nat := List.replicate 16 0

def z32 : List Nat := List.replicate 32 0

def postDown : PostOracle := fun _ => PostResult.netErr "connection refused"

def t0 : Token :=
  { accessToken := "acc", tokenType := "Bearer", refreshToken := "ref", expiry := 1000 }

/-! The claims. -/

/-- Claim C8: for every verifier string, the generated code challenge equals
the URL-safe, padding-free base64 encoding of the SHA-256 hash of the
verifier, deterministically; and each attempt's state and verifier are the
URL-safe padding-free encodings of 16 and 32 random bytes respectively
(yielding 22- and 43-character strings over the URL-safe alphabet with no
`=` padding). -/
theorem C8_pkce_parameters (sb vb : List Nat) (hs : sb.length = 16) (hv : vb.length = 32)
    (hsb : ∀ b ∈ sb, b < 256) (hvb : ∀ b ∈ vb, b < 256) :
    (initPKCE sb vb).challenge =
      String.mk (b64EncodeBytes (sha256Bytes (strBytes (initPKCE sb vb).verifier))) ∧
    (∀ v w : String, v = w → generateCodeChallenge v = generateCodeChallenge w) ∧
    (initPKCE sb vb).state = generateRandomString sb ∧
    (initPKCE sb vb).verifier = generateRandomString vb ∧
    (initPKCE sb vb).state.length = 22 ∧
    (initPKCE sb vb).verifier.length = 43 ∧
    urlSafeNoPad (initPKCE sb vb).state ∧
    urlSafeNoPad (initPKCE sb vb).verifier ∧
    urlSafeNoPad (initPKCE sb vb).challenge := by
  refine ⟨rfl, fun v w h => by rw [h], rfl, rfl, ?_, ?_, ?_, ?_, ?_⟩
  · have h1 : (initPKCE sb vb).state.length = (b64EncodeBytes sb).length := rfl
    rw [h1, b64EncodeBytes_length, hs]
  · have h1 : (initPKCE sb vb).verifier.length = (b64EncodeBytes vb).length := rfl
    rw [h1, b64EncodeBytes_length, hv]
  · exact urlSafeNoPad_of_bytes sb hsb
  · exact urlSafeNoPad_of_bytes vb hvb
  · exact urlSafeNoPad_of_bytes _ (sha256Bytes_mem_lt _)

/-- Witness for C8 at the all-zero entropy input. -/
theorem C8_pkce_parameters_witness :
    z16.length = 16 ∧ z32.length = 32 ∧ (∀ b ∈ z16, b < 256) ∧
    (initPKCE z16 z32).state.length = 22 ∧
    (initPKCE z16 z32).verifier.length = 43 ∧
    urlSafeNoPad (initPKCE z16 z32).state :=
  ⟨by decide, by decide, by decide,
   (C8_pkce_parameters z16 z32 (by decide) (by decide) (by decide) (by decide)).2.2.2.2.1,
   (C8_pkce_parameters z16 z32 (by decide) (by decide) (by decide) (by decide)).2.2.2.2.2.1,
   (C8_pkce_parameters z16 z32 (by decide) (by decide) (by decide) (by decide)).2.2.2.2.2.2.1⟩

/-- Claim C5: with a cached token whose expiry is more than 5 minutes past
`now`, Login returns its access/refresh pair immediately, with no refresh
call, no exchange call and no listener, leaving the cache unchanged; the
result does not depend on the network oracle, the entropy, or any callback
request at all. -/
theorem C5_cached_fresh (t : Token) (now : Int) (post post2 : PostOracle)
    (sb vb sb2 vb2 : List Nat) (req req2 : Option CallbackRequest)
    (hfresh : now + 5 * 60 < t.expiry) :
    (Login (some t) now post sb vb req).accessToken = t.accessToken ∧
    (Login (some t) now post sb vb req).refreshToken = t.refreshToken ∧
    (Login (some t) now post sb vb req).err = none ∧
    (Login (some t) now post sb vb req).finalCache = some t ∧
    (Login (some t) now post sb vb req).refreshCalls = 0 ∧
    (Login (some t) now post sb vb req).exchangeCalls = 0 ∧
    (Login (some t) now post sb vb req).listenerStarted = false ∧
    Login (some t) now post sb vb req = Login (some t) now post2 sb2 vb2 req2 := by
  have hv : isTokenValid (some t) now = true := by
    simp only [isTokenValid, decide_eq_true_eq]
    omega
  simp [Login, hv]

/-- Witness for C5: a token expiring at 1000 s, read at 0 s. -/
theorem C5_cached_fresh_witness :
    ((0 : Int) + 5 * 60 < t0.expiry) ∧
    (Login (some t0) 0 postDown z16 z32 none).accessToken = t0.accessToken ∧
    (Login (some t0) 0 postDown z16 z32 none).err = none ∧
    (Login (some t0) 0 postDown z16 z32 none).refreshCalls = 0 ∧
    (Login (some t0) 0 postDown z16 z32 none).listenerStarted = false :=
  ⟨by decide,
   (C5_cached_fresh t0 0 postDown postDown z16 z32 z16 z32 none none (by decide)).1,
   (C5_cached_fresh t0 0 postDown postDown z16 z32 z16 z32 none none (by decide)).2.2.1,
   (C5_cached_fresh t0 0 postDown postDown z16 z32 z16 z32 none none (by decide)).2.2.2.2.1,
   (C5_cached_fresh t0 0 postDown postDown z16 z32 z16 z32 none none (by decide)).2.2.2.2.2.2.1⟩

/-- Claim C7: a successful refresh whose response carries an empty
`refresh_token` keeps the old token's refresh token; a non-empty one
replaces it. -/
theorem C7_refresh_preserves_refresh_token (t : Token) (now : Int) (post : PostOracle)
    (body : String) (tr : TokenResponseBody)
    (hresp : post [("client_id", clientID), ("grant_type", "refresh_token"),
                   ("refresh_token", t.refreshToken)] = .resp 200 body (some tr)) :
    ∃ nt, refreshToken t now post = .ok nt ∧
      (tr.refresh_token = "" → nt.refreshToken = t.refreshToken) ∧
      (tr.refresh_token ≠ "" → nt.refreshToken = tr.refresh_token) ∧
      nt.accessToken = tr.access_token ∧
      nt.tokenType = tr.token_type ∧
      nt.expiry = now + tr.expires_in := by
  refine ⟨{ accessToken := tr.access_token, tokenType := tr.token_type,
            refreshToken := if tr.refresh_token = "" then t.refreshToken else tr.refresh_token,
            expiry := now + tr.expires_in }, ?_, ?_, ?_, rfl, rfl, rfl⟩
  · simp [refreshToken, hresp]
  · intro h
    simp [h]
  · intro h
    simp [h]

def trOmitting : TokenResponseBody :=
  { access_token := "newacc", token_type := "Bearer", expires_in := 3600,
    refresh_token := "", scope := "" }

def postRefreshOmitting : PostOracle := fun _ => PostResult.resp 200 "" (some trOmitting)

/-- Witness for C7: a refresh response omitting the refresh token. -/
theorem C7_refresh_preserves_refresh_token_witness :
    ∃ nt, refreshToken t0 0 postRefreshOmitting = .ok nt ∧
      (trOmitting.refresh_token = "" → nt.refreshToken = t0.refreshToken) ∧
      (trOmitting.refresh_token ≠ "" → nt.refreshToken = trOmitting.refresh_token) ∧
      nt.accessToken = trOmitting.access_token ∧
      nt.tokenType = trOmitting.token_type ∧
      nt.expiry = 0 + trOmitting.expires_in :=
  C7_refresh_preserves_refresh_token t0 0 postRefreshOmitting "" trOmitting rfl

/-- Structural invariants of the interactive tail: it reports the refresh
count it was handed, starts the listener, and stops it before returning. -/
theorem interactiveLogin_invariants (cache : Option Token) (now : Int) (post : PostOracle)
    (sb vb : List Nat) (req : Option CallbackRequest) (rcalls : Nat) :
    (interactiveLogin cache now post sb vb req rcalls).refreshCalls = rcalls ∧
    (interactiveLogin cache now post sb vb req rcalls).listenerStarted = true ∧
    (interactiveLogin cache now post sb vb req rcalls).listenerStopped = true := by
  rcases req with _ | r
  · simp [interactiveLogin]
  · rcases hs : (completeAuthHandler (initPKCE sb vb).state r (initPKCE sb vb).verifier
        now post).sent with _ | tok <;>
      simp [interactiveLogin, hs]

/-- Cache behaviour of the interactive tail: the cache is unchanged unless
the handler delivered a token, in which case that token becomes the cache
and no error is reported. -/
theorem interactiveLogin_cache (cache : Option Token) (now : Int) (post : PostOracle)
    (sb vb : List Nat) (req : Option CallbackRequest) (rcalls : Nat) :
    ((interactiveLogin cache now post sb vb req rcalls).err = none ∨
     (interactiveLogin cache now post sb vb req rcalls).finalCache = cache) ∧
    ((interactiveLogin cache now post sb vb req rcalls).finalCache = cache ∨
     ∃ r tok, req = some r ∧
       (completeAuthHandler (initPKCE sb vb).state r (initPKCE sb vb).verifier now post).sent
         = some tok ∧
       (interactiveLogin cache now post sb vb req rcalls).finalCache = some tok ∧
       (interactiveLogin cache now post sb vb req rcalls).err = none) := by
  rcases req with _ | r
  · constructor
    · right
      simp [interactiveLogin]
    · left
      simp [interactiveLogin]
  · rcases hs : (completeAuthHandler (initPKCE sb vb).state r (initPKCE sb vb).verifier
        now post).sent with _ | tok
    · constructor
      · right
        simp [interactiveLogin, hs]
      · left
        simp [interactiveLogin, hs]
    · constructor
      · left
        simp [interactiveLogin, hs]
      · right
        exact ⟨r, tok, rfl, hs, by simp [interactiveLogin, hs], by simp [interactiveLogin, hs]⟩

/-- Claim C4: an interactive login (no usable cache, refresh failed or no
cache at all) that receives no callback within the window returns the
authentication-timeout error, with the listener started and stopped again
before returning, and the token endpoint never called for the exchange. -/
theorem C4_timeout (cache : Option Token) (now : Int) (post : PostOracle) (sb vb : List Nat)
    (hinteractive : cache = none ∨
      ∃ t, cache = some t ∧ isTokenValid (some t) now = false ∧
        ∃ e, refreshToken t now post = .err e) :
    (Login cache now post sb vb none).err = some "authentication timeout after 5 minutes" ∧
    (Login cache now post sb vb none).listenerStarted = true ∧
    (Login cache now post sb vb none).listenerStopped = true ∧
    (Login cache now post sb vb none).exchangeCalls = 0 := by
  rcases hinteractive with rfl | ⟨t, rfl, hstale, e, herr⟩
  · simp [Login, interactiveLogin]
  · simp [Login, hstale, herr, interactiveLogin]

/-- Witness for C4: no cache, no callback. -/
theorem C4_timeout_witness :
    (Login none 0 postDown z16 z32 none).err = some "authentication timeout after 5 minutes" ∧
    (Login none 0 postDown z16 z32 none).listenerStarted = true ∧
    (Login none 0 postDown z16 z32 none).listenerStopped = true ∧
    (Login none 0 postDown z16 z32 none).exchangeCalls = 0 :=
  C4_timeout none 0 postDown z16 z32 (Or.inl rfl)

/-- Claim C6: with a cached token that fails the freshness check, exactly one
refresh call is made; on refresh success the new token replaces the cache
and its pair is returned with no interactive login; on refresh failure Login
falls through to the interactive flow and never reports the refresh error
itself. -/
theorem C6_stale_refresh (t : Token) (now : Int) (post : PostOracle)
    (sb vb : List Nat) (req : Option CallbackRequest)
    (hstale : isTokenValid (some t) now = false) :
    (Login (some t) now post sb vb req).refreshCalls = 1 ∧
    (∀ nt, refreshToken t now post = .ok nt →
      (Login (some t) now post sb vb req).err = none ∧
      (Login (some t) now post sb vb req).finalCache = some nt ∧
      (Login (some t) now post sb vb req).accessToken = nt.accessToken ∧
      (Login (some t) now post sb vb req).refreshToken = nt.refreshToken ∧
      (Login (some t) now post sb vb req).listenerStarted = false) ∧
    (∀ e, refreshToken t now post = .err e →
      (Login (some t) now post sb vb req).listenerStarted = true ∧
      (Login (some t) now post sb vb req).err ≠ some e) := by
  cases hr : refreshToken t now post with
  | ok nt =>
    refine ⟨by simp [Login, hstale, hr], ?_, ?_⟩
    · intro nt' h
      injection h with hnt
      subst hnt
      simp [Login, hstale, hr]
    · intro e h
      exact absurd h (by simp)
  | err msg =>
    have hL : Login (some t) now post sb vb req = interactiveLogin (some t) now post sb vb req 1 := by
      simp [Login, hstale, hr]
    refine ⟨?_, ?_, ?_⟩
    · rw [hL]
      exact (interactiveLogin_invariants (some t) now post sb vb req 1).1
    · intro nt h
      exact absurd h (by simp)
    · intro e h
      injection h with he
      subst he
      constructor
      · rw [hL]
        exact (interactiveLogin_invariants (some t) now post sb vb req 1).2.1
      · rw [hL]
        rcases interactiveLogin_err_cases (some t) now post sb vb req 1 with h0 | h0 <;> rw [h0]
        · simp
        · intro hcontra
          have hmsg : msg = "authentication timeout after 5 minutes" :=
            (Option.some.inj hcontra).symm
          exact refreshToken_err_ne_timeout t now post msg hr hmsg

/-- Witness for C6: a stale token whose refresh fails on a network error. -/
theorem C6_stale_refresh_witness :
    isTokenValid (some t0) 100000 = false ∧
    (Login (some t0) 100000 postDown z16 z32 none).refreshCalls = 1 ∧
    (Login (some t0) 100000 postDown z16 z32 none).listenerStarted = true ∧
    (Login (some t0) 100000 postDown z16 z32 none).err ≠
      some "failed to refresh token: connection refused" :=
  ⟨by decide,
   (C6_stale_refresh t0 100000 postDown z16 z32 none (by decide)).1,
   ((C6_stale_refresh t0 100000 postDown z16 z32 none (by decide)).2.2
      "failed to refresh token: connection refused" (by decide)).1,
   ((C6_stale_refresh t0 100000 postDown z16 z32 none (by decide)).2.2
      "failed to refresh token: connection refused" (by decide)).2⟩

/-- Claim C10: whenever Login returns an error the cache still holds the
value it held on entry, and the cache is only ever replaced by the token of
a successful refresh or by a token delivered by the callback handler (both
error-free paths). -/
theorem C10_cache_stability (cache : Option Token) (now : Int) (post : PostOracle)
    (sb vb : List Nat) (req : Option CallbackRequest) :
    ((Login cache now post sb vb req).err = none ∨
     (Login cache now post sb vb req).finalCache = cache) ∧
    ((Login cache now post sb vb req).finalCache = cache ∨
     (∃ t nt, cache = some t ∧ refreshToken t now post = .ok nt ∧
        (Login cache now post sb vb req).finalCache = some nt ∧
        (Login cache now post sb vb req).err = none) ∨
     (∃ r tok, req = some r ∧
        (completeAuthHandler (initPKCE sb vb).state r (initPKCE sb vb).verifier now post).sent
          = some tok ∧
        (Login cache now post sb vb req).finalCache = some tok ∧
        (Login cache now post sb vb req).err = none)) := by
  cases cache with
  | none =>
    obtain ⟨h1, h2⟩ := interactiveLogin_cache none now post sb vb req 0
    refine ⟨h1, ?_⟩
    rcases h2 with h | ⟨r, tok, hreq, hs, hf, he⟩
    · exact Or.inl h
    · exact Or.inr (Or.inr ⟨r, tok, hreq, hs, hf, he⟩)
  | some t =>
    cases hv : isTokenValid (some t) now with
    | true =>
      refine ⟨Or.inr ?_, Or.inl ?_⟩ <;> simp [Login, hv]
    | false =>
      cases hr : refreshToken t now post with
      | ok nt =>
        exact ⟨Or.inl (by simp [Login, hv, hr]),
               Or.inr (Or.inl ⟨t, nt, rfl, hr, by simp [Login, hv, hr], by simp [Login, hv, hr]⟩)⟩
      | err msg =>
        have hL : Login (some t) now post sb vb req =
            interactiveLogin (some t) now post sb vb req 1 := by
          simp [Login, hv, hr]
        obtain ⟨h1, h2⟩ := interactiveLogin_cache (some t) now post sb vb req 1
        rw [hL]
        refine ⟨h1, ?_⟩
        rcases h2 with h | ⟨r, tok, hreq, hs, hf, he⟩
        · exact Or.inl h
        · exact Or.inr (Or.inr ⟨r, tok, hreq, hs, hf, he⟩)

def reqDenied : CallbackRequest :=
  { error := "access_denied", error_description := "User denied access",
    state := "AAAAAAAAAAAAAAAAAAAAAA", code := "" }

def reqGood : CallbackRequest :=
  { error := "", error_description := "", state := "AAAAAAAAAAAAAAAAAAAAAA", code := "abc" }

def reqBoth : CallbackRequest :=
  { error := "boom", error_description := "d", state := "WRONG", code := "c" }

def reqBadState : CallbackRequest :=
  { error := "", error_description := "", state := "WRONG", code := "c" }

def postStatus400 : PostOracle := fun _ => PostResult.resp 400 "bad request" none

/-- Claim C1 counterexample: on a callback carrying `error=access_denied` the
handler rejects it without sending anything, so Login (which learns nothing)
returns the timeout message — an error that does not contain
"access_denied" — rather than propagating the handler's failure.  (The
"token endpoint is never called" half of the claim does hold.) -/
theorem C1_counterexample :
    (Login none 0 postDown z16 z32 (some reqDenied)).err =
      some "authentication timeout after 5 minutes" ∧
    containsSubstr "authentication timeout after 5 minutes" "access_denied" = false ∧
    (Login none 0 postDown z16 z32 (some reqDenied)).exchangeCalls = 0 := by
  decide

/-- Claim C1 (amended): on every failing callback (error parameter present,
state mismatch, or missing code) the handler rejects the request without
calling the token endpoint and without delivering any result to the waiter;
Login is never notified of the failure, and — absent a later successful
callback — returns the authentication-timeout error, with the listener
stopped. -/
theorem C1_failure_callbacks (now : Int) (post : PostOracle) (sb vb : List Nat)
    (r : CallbackRequest)
    (hfail : r.error ≠ "" ∨ r.state ≠ (initPKCE sb vb).state ∨ r.code = "") :
    ((completeAuthHandler (initPKCE sb vb).state r (initPKCE sb vb).verifier now post).status
        = 403 ∨
     (completeAuthHandler (initPKCE sb vb).state r (initPKCE sb vb).verifier now post).status
        = 400) ∧
    (completeAuthHandler (initPKCE sb vb).state r (initPKCE sb vb).verifier now post).sent
      = none ∧
    (completeAuthHandler (initPKCE sb vb).state r (initPKCE sb vb).verifier now post).exchangeCalls
      = 0 ∧
    (Login none now post sb vb (some r)).err = some "authentication timeout after 5 minutes" ∧
    (Login none now post sb vb (some r)).exchangeCalls = 0 ∧
    (Login none now post sb vb (some r)).listenerStopped = true := by
  have hh : ((completeAuthHandler (initPKCE sb vb).state r (initPKCE sb vb).verifier
        now post).status = 403 ∨
      (completeAuthHandler (initPKCE sb vb).state r (initPKCE sb vb).verifier
        now post).status = 400) ∧
      (completeAuthHandler (initPKCE sb vb).state r (initPKCE sb vb).verifier
        now post).sent = none ∧
      (completeAuthHandler (initPKCE sb vb).state r (initPKCE sb vb).verifier
        now post).exchangeCalls = 0 := by
    by_cases he : r.error = ""
    · by_cases hst : r.state = (initPKCE sb vb).state
      · by_cases hc : r.code = ""
        · simp [completeAuthHandler, he, hst, hc]
        · rcases hfail with h | h | h <;> simp_all
      · simp [completeAuthHandler, he, hst]
    · simp [completeAuthHandler, he]
  refine ⟨hh.1, hh.2.1, hh.2.2, ?_, ?_, ?_⟩ <;> simp [Login, interactiveLogin, hh.2.1, hh.2.2]

/-- Witness for C1 (amended) at the access-denied callback. -/
theorem C1_failure_callbacks_witness :
    reqDenied.error ≠ "" ∧
    ((completeAuthHandler (initPKCE z16 z32).state reqDenied (initPKCE z16 z32).verifier
        0 postDown).status = 403 ∨
     (completeAuthHandler (initPKCE z16 z32).state reqDenied (initPKCE z16 z32).verifier
        0 postDown).status = 400) ∧
    (completeAuthHandler (initPKCE z16 z32).state reqDenied (initPKCE z16 z32).verifier
        0 postDown).sent = none ∧
    (Login none 0 postDown z16 z32 (some reqDenied)).err =
      some "authentication timeout after 5 minutes" :=
  ⟨by decide,
   (C1_failure_callbacks 0 postDown z16 z32 reqDenied (Or.inl (by decide))).1,
   (C1_failure_callbacks 0 postDown z16 z32 reqDenied (Or.inl (by decide))).2.1,
   (C1_failure_callbacks 0 postDown z16 z32 reqDenied (Or.inl (by decide))).2.2.2.1⟩

/-- Claim C2 counterexample: when the code-for-token exchange fails (here a
400 response), the handler answers HTTP 500 and sends nothing; Login returns
the timeout message, which is not the exchange error.  (The "cache left
unchanged" half of the claim does hold.) -/
theorem C2_counterexample :
    exchangeCodeForToken "abc" (initPKCE z16 z32).verifier 0 postStatus400 =
      .err "token exchange failed (status 400): bad request" ∧
    (Login none 0 postStatus400 z16 z32 (some reqGood)).err =
      some "authentication timeout after 5 minutes" ∧
    "authentication timeout after 5 minutes" ≠
      "token exchange failed (status 400): bad request" ∧
    (Login none 0 postStatus400 z16 z32 (some reqGood)).finalCache = none := by
  decide

/-- Claim C2 (amended): on every exchange failure the handler answers HTTP
500 carrying the exchange error, makes exactly one token-endpoint call,
delivers nothing to the waiter, and the cached token is left unchanged;
Login itself returns the timeout error rather than the exchange error. -/
theorem C2_exchange_failure (now : Int) (post : PostOracle) (sb vb : List Nat)
    (r : CallbackRequest) (e : String)
    (he : r.error = "") (hst : r.state = (initPKCE sb vb).state) (hc : r.code ≠ "")
    (hex : exchangeCodeForToken r.code (initPKCE sb vb).verifier now post = .err e) :
    (completeAuthHandler (initPKCE sb vb).state r (initPKCE sb vb).verifier now post).status
      = 500 ∧
    (completeAuthHandler (initPKCE sb vb).state r (initPKCE sb vb).verifier now post).message
      = some ("Failed to get token: " ++ e) ∧
    (completeAuthHandler (initPKCE sb vb).state r (initPKCE sb vb).verifier now post).sent
      = none ∧
    (completeAuthHandler (initPKCE sb vb).state r (initPKCE sb vb).verifier now post).exchangeCalls
      = 1 ∧
    (Login none now post sb vb (some r)).err = some "authentication timeout after 5 minutes" ∧
    (Login none now post sb vb (some r)).finalCache = none := by
  have hh : completeAuthHandler (initPKCE sb vb).state r (initPKCE sb vb).verifier now post =
      { status := 500, message := some ("Failed to get token: " ++ e),
        exchangeCalls := 1, sent := none } := by
    simp [completeAuthHandler, he, hst, hc, hex]
  refine ⟨by rw [hh], by rw [hh], by rw [hh], by rw [hh], ?_, ?_⟩ <;>
    simp [Login, interactiveLogin, hh]

/-- Witness for C2 (amended) at the 400-response exchange. -/
theorem C2_exchange_failure_witness :
    reqGood.code ≠ "" ∧
    (completeAuthHandler (initPKCE z16 z32).state reqGood (initPKCE z16 z32).verifier
        0 postStatus400).status = 500 ∧
    (Login none 0 postStatus400 z16 z32 (some reqGood)).finalCache = none :=
  ⟨by decide,
   (C2_exchange_failure 0 postStatus400 z16 z32 reqGood
      "token exchange failed (status 400): bad request"
      (by decide) (by decide) (by decide) (by decide)).1,
   (C2_exchange_failure 0 postStatus400 z16 z32 reqGood
      "token exchange failed (status 400): bad request"
      (by decide) (by decide) (by decide) (by decide)).2.2.2.2.2⟩

/-- Claim C3 counterexample: a request carrying both an `error` parameter and
a mismatched state is handled by the error branch — the response is the
error message, not the state-mismatch rejection — so the state comparison is
not performed before any other processing of the request. -/
theorem C3_counterexample :
    reqBoth.state ≠ "S" ∧
    (completeAuthHandler "S" reqBoth "V" 0 postDown).message =
      some "Authentication error: boom - d" ∧
    (completeAuthHandler "S" reqBoth "V" 0 postDown).message ≠
      some "Invalid state parameter" := by
  decide

/-- Claim C3 (amended): the state comparison is performed after the
error-parameter check but before any further processing; when no error
parameter is present, a mismatched state is rejected with HTTP 403 and
neither code extraction nor the token exchange runs, and nothing is
delivered to the waiter. -/
theorem C3_state_check (st verifier : String) (r : CallbackRequest) (now : Int)
    (post : PostOracle) (he : r.error = "") (hst : r.state ≠ st) :
    completeAuthHandler st r verifier now post =
      { status := 403, message := some "Invalid state parameter",
        exchangeCalls := 0, sent := none } := by
  simp [completeAuthHandler, he, hst]

/-- Witness for C3 (amended) at a mismatched-state callback. -/
theorem C3_state_check_witness :
    reqBadState.error = "" ∧
    reqBadState.state ≠ "S" ∧
    completeAuthHandler "S" reqBadState "V" 0 postDown =
      { status := 403, message := some "Invalid state parameter",
        exchangeCalls := 0, sent := none } :=
  ⟨rfl, by decide, C3_state_check "S" "V" reqBadState 0 postDown rfl (by decide)⟩
